import Mathlib

/-!
Verification of the yart ray-tracing core: the axis-aligned bounding box
(AABB) math in src/yart/src/geometries/bounding_box.rs, the acceleration
wrapper in src/yart/src/geometries/bounding_geometry.rs and the recursive
shading evaluator in src/yart/src/scene.rs.

The Rust code computes with IEEE f64 values (type alias Real).  The
embedding models the f64 values reachable by this code as extended
rationals: an arbitrary finite value, positive infinity, or negative
infinity.  Comparisons, min and max follow the IEEE semantics on non-NaN
inputs.  Arithmetic on finite values is exact rational arithmetic; the
indeterminate corner cases that IEEE maps to NaN (infinity minus infinity,
zero times infinity) are given harmless fixed values — no theorem below
depends on those corner cases.
-/

namespace Yart

/-- Extended rationals modelling the non-NaN f64 values (`Real` in the
Rust sources, an alias of f64): negative infinity, a finite value, or
positive infinity. -/
inductive Real where
  | negInf : Real
  | fin : ℚ → Real
  | posInf : Real
deriving DecidableEq

/-- The f64 comparison a <= b restricted to non-NaN inputs. -/
def Real.le : Real → Real → Bool
  | .negInf, _ => true
  | _, .posInf => true
  | .fin a, .fin b => decide (a ≤ b)
  | .posInf, .fin _ => false
  | .posInf, .negInf => false
  | .fin _, .negInf => false

/-- f64::min on non-NaN inputs: the smaller of the two values. -/
def Real.min (a b : Real) : Real :=
  if Real.le a b then a else b

/-- f64::max on non-NaN inputs: the larger of the two values. -/
def Real.max (a b : Real) : Real :=
  if Real.le a b then b else a

/-- f64 negation. -/
def Real.neg : Real → Real
  | .negInf => .posInf
  | .fin a => .fin (-a)
  | .posInf => .negInf

/-- f64 addition on non-NaN inputs.  The IEEE-indeterminate case
(opposite infinities, NaN in IEEE) is arbitrarily mapped to 0; no theorem
depends on it. -/
def Real.add : Real → Real → Real
  | .fin a, .fin b => .fin (a + b)
  | .posInf, .negInf => .fin 0
  | .negInf, .posInf => .fin 0
  | .posInf, _ => .posInf
  | _, .posInf => .posInf
  | .negInf, _ => .negInf
  | _, .negInf => .negInf

/-- f64 subtraction, as addition of the negation. -/
def Real.sub (a b : Real) : Real :=
  Real.add a (Real.neg b)

/-- f64 multiplication on non-NaN inputs.  The IEEE-indeterminate case
(zero times infinity, NaN in IEEE) is arbitrarily mapped to 0; no theorem
depends on it. -/
def Real.mul : Real → Real → Real
  | .fin a, .fin b => .fin (a * b)
  | .posInf, .posInf => .posInf
  | .posInf, .negInf => .negInf
  | .negInf, .posInf => .negInf
  | .negInf, .negInf => .posInf
  | .posInf, .fin b => if b = 0 then .fin 0 else if 0 < b then .posInf else .negInf
  | .negInf, .fin b => if b = 0 then .fin 0 else if 0 < b then .negInf else .posInf
  | .fin a, .posInf => if a = 0 then .fin 0 else if 0 < a then .posInf else .negInf
  | .fin a, .negInf => if a = 0 then .fin 0 else if 0 < a then .negInf else .posInf

/-- Whether a value is finite (neither infinity). -/
def Real.isFinite : Real → Bool
  | .fin _ => true
  | _ => false

/-- Modelled from the spec: the Vector3 numeric kernel (src/yart/src/math,
not under src/) — a 3-component vector of `Real` with componentwise
min/max/multiply and standard arithmetic. -/
structure Vector3 where
  x : Real
  y : Real
  z : Real
deriving DecidableEq

/-- Modelled from the spec: componentwise vector addition. -/
def Vector3.add (a b : Vector3) : Vector3 :=
  ⟨Real.add a.x b.x, Real.add a.y b.y, Real.add a.z b.z⟩

/-- Modelled from the spec: componentwise vector subtraction. -/
def Vector3.sub (a b : Vector3) : Vector3 :=
  ⟨Real.sub a.x b.x, Real.sub a.y b.y, Real.sub a.z b.z⟩

/-- Modelled from the spec: componentwise vector negation. -/
def Vector3.neg (a : Vector3) : Vector3 :=
  ⟨Real.neg a.x, Real.neg a.y, Real.neg a.z⟩

/-- Modelled from the spec: Vector3::component_mul, componentwise
multiplication. -/
def Vector3.component_mul (a b : Vector3) : Vector3 :=
  ⟨Real.mul a.x b.x, Real.mul a.y b.y, Real.mul a.z b.z⟩

/-- Modelled from the spec: Vector3::min, componentwise minimum. -/
def Vector3.min (a b : Vector3) : Vector3 :=
  ⟨Real.min a.x b.x, Real.min a.y b.y, Real.min a.z b.z⟩

/-- Modelled from the spec: Vector3::max, componentwise maximum. -/
def Vector3.max (a b : Vector3) : Vector3 :=
  ⟨Real.max a.x b.x, Real.max a.y b.y, Real.max a.z b.z⟩

/-- Modelled from the spec: scalar times vector (Real * Vector3 in Rust). -/
def Vector3.smul (s : Real) (v : Vector3) : Vector3 :=
  ⟨Real.mul s v.x, Real.mul s v.y, Real.mul s v.z⟩

/-- Modelled from the spec: vector times scalar (Vector3 * Real in Rust). -/
def Vector3.mul_scalar (v : Vector3) (s : Real) : Vector3 :=
  ⟨Real.mul v.x s, Real.mul v.y s, Real.mul v.z s⟩

/-- Modelled from the spec: Vector3::new_infinity, the vector with every
component positive infinity. -/
def Vector3.new_infinity : Vector3 :=
  ⟨Real.posInf, Real.posInf, Real.posInf⟩

/-- All three components are finite. -/
def Vector3.isFinite (v : Vector3) : Bool :=
  v.x.isFinite && v.y.isFinite && v.z.isFinite

/-- Modelled from the spec: Ray (src/yart/src/geometries/ray.rs, not under
src/) — an origin, a direction, and the precomputed per-component
reciprocal of the direction, all read through accessors.  The claims under
verification never rely on the relation between direction and
inverse_direction, so the three fields are modelled as independent. -/
structure Ray where
  position : Vector3
  direction : Vector3
  inverse_direction : Vector3
deriving DecidableEq

/-- An AABB, from src/yart/src/geometries/bounding_box.rs: a minimum and a
maximum corner. -/
structure BoundingBox where
  minimum : Vector3
  maximum : Vector3
deriving DecidableEq

/-- BoundingBox::new. -/
def BoundingBox.new (minimum maximum : Vector3) : BoundingBox :=
  ⟨minimum, maximum⟩

/-- BoundingBox::new_infinity: minimum negative infinity, maximum positive
infinity. -/
def BoundingBox.new_infinity : BoundingBox :=
  BoundingBox.new (Vector3.neg Vector3.new_infinity) Vector3.new_infinity

/-- BoundingBox::new_inverse_infinity: minimum positive infinity, maximum
negative infinity — the empty box used to seed union accumulation. -/
def BoundingBox.new_inverse_infinity : BoundingBox :=
  BoundingBox.new Vector3.new_infinity (Vector3.neg Vector3.new_infinity)

/-- Both corners are finite. -/
def BoundingBox.isFinite (b : BoundingBox) : Bool :=
  b.minimum.isFinite && b.maximum.isFinite

/-- BoundingBox::add_point.  The Rust method mutates self and returns it;
modelled as a function returning the updated box. -/
def BoundingBox.add_point (b : BoundingBox) (point : Vector3) : BoundingBox :=
  { minimum := Vector3.min point b.minimum
    maximum := Vector3.max point b.maximum }

/-- BoundingBox::add_bounding_box.  The Rust method mutates self and
returns it; modelled as a function returning the updated box. -/
def BoundingBox.add_bounding_box (b other_bounding_box : BoundingBox) : BoundingBox :=
  { minimum := Vector3.min other_bounding_box.minimum b.minimum
    maximum := Vector3.max other_bounding_box.maximum b.maximum }

/-- BoundingBox::contains_point. -/
def BoundingBox.contains_point (b : BoundingBox) (point : Vector3) : Bool :=
  Real.le b.minimum.x point.x
    && Real.le b.minimum.y point.y
    && Real.le b.minimum.z point.z
    && Real.le point.x b.maximum.x
    && Real.le point.y b.maximum.y
    && Real.le point.z b.maximum.z

/-- BoundingBox::contains_bounding_box: the other box lies entirely inside
self, inclusive on both ends.  Each Rust comparison u >= v is rendered as
Real.le v u. -/
def BoundingBox.contains_bounding_box (b bounding_box : BoundingBox) : Bool :=
  Real.le b.minimum.x bounding_box.minimum.x
    && Real.le bounding_box.minimum.x b.maximum.x
    && Real.le b.minimum.x bounding_box.maximum.x
    && Real.le bounding_box.maximum.x b.maximum.x
    && Real.le b.minimum.y bounding_box.minimum.y
    && Real.le bounding_box.minimum.y b.maximum.y
    && Real.le b.minimum.y bounding_box.maximum.y
    && Real.le bounding_box.maximum.y b.maximum.y
    && Real.le b.minimum.z bounding_box.minimum.z
    && Real.le bounding_box.minimum.z b.maximum.z
    && Real.le b.minimum.z bounding_box.maximum.z
    && Real.le bounding_box.maximum.z b.maximum.z

/-- BoundingBox::overlaps_bounding_box: separating-axis overlap test.
Each Rust comparison u >= v is rendered as Real.le v u. -/
def BoundingBox.overlaps_bounding_box (b bounding_box : BoundingBox) : Bool :=
  Real.le bounding_box.minimum.x b.maximum.x
    && Real.le b.minimum.x bounding_box.maximum.x
    && Real.le bounding_box.minimum.y b.maximum.y
    && Real.le b.minimum.y bounding_box.maximum.y
    && Real.le bounding_box.minimum.z b.maximum.z
    && Real.le b.minimum.z bounding_box.maximum.z

/-- BoundingBox::ray_intersects: the slab test.  The locals named min and
max mirror the Rust locals of the same names (per-axis t values from the
minimum and maximum corners respectively). -/
def BoundingBox.ray_intersects (b : BoundingBox) (ray : Ray) : Bool :=
  let min := Vector3.component_mul (Vector3.sub b.minimum ray.position) ray.inverse_direction
  let max := Vector3.component_mul (Vector3.sub b.maximum ray.position) ray.inverse_direction
  let exit_distance :=
    Real.min (Real.min (Real.max min.x max.x) (Real.max min.y max.y)) (Real.max min.z max.z)
  let entrance_distance :=
    Real.max (Real.max (Real.min min.x max.x) (Real.min min.y max.y)) (Real.min min.z max.z)
  Real.le (Real.fin 0) exit_distance && Real.le entrance_distance exit_distance

/-- Modelled from the spec: the color type (src/yart/src/math/color3.rs,
not under src/).  Color3::default() is the zero/black color. -/
structure Color3 where
  r : Real
  g : Real
  b : Real
deriving DecidableEq

/-- Color3::default(), the zero/black color. -/
def Color3.default : Color3 :=
  ⟨Real.fin 0, Real.fin 0, Real.fin 0⟩

/-- Modelled from the spec: the NORMAL_BUMP epsilon from
src/yart/src/common.rs (not under src/).  Its exact value is immaterial to
every claim below; a representative small positive value is used. -/
def NORMAL_BUMP : Real :=
  Real.fin (1 / 10000)

/-- Modelled from the spec: the part of a hit geometry the evaluator uses —
its own material index and its normal-calculation capability (parameterized
by the ray and the hit point). -/
structure Geometry where
  material_index : Nat
  calculate_normal : Ray → Vector3 → Vector3

/-- Modelled from the spec: the Intersection record
(src/yart/src/geometries/intersection.rs, not under src/): the hit
geometry, the entrance distance along the ray, and the material-index
override sentinel (a plain index; positive means override). -/
structure Intersection where
  hit_geometry : Geometry
  entrance_distance : Real
  material_index_override : Nat

/-- The Intersectable capability: dyn Intersectable as its intersect
function. -/
structure Intersectable where
  intersect : Ray → Option Intersection

/-- The BoundingVolume capability: dyn BoundingVolume as its
ray_intersects test together with its advertised AABB. -/
structure BoundingVolume where
  ray_intersects : Ray → Bool
  calculate_bounding_box : BoundingBox

/-- BoundingGeometry, from
src/yart/src/geometries/bounding_geometry.rs: a bounding volume paired
with a child Intersectable. -/
structure BoundingGeometry where
  bounding_volume : BoundingVolume
  child : Intersectable

/-- BoundingGeometry::intersect: reject via the bounding volume, else
delegate to the child. -/
def BoundingGeometry.intersect (g : BoundingGeometry) (ray : Ray) : Option Intersection :=
  if g.bounding_volume.ray_intersects ray then g.child.intersect ray else none

/-- BoundingGeometry::calculate_bounding_box: the volume's own box. -/
def BoundingGeometry.calculate_bounding_box (g : BoundingGeometry) : BoundingBox :=
  g.bounding_volume.calculate_bounding_box

/-- Modelled from the spec: the Material capability.  The Rust
calculate_rendering_equation also receives the scene itself for recursive
casts; that self-reference cannot appear in the field type, and no claim
below depends on what a material computes, so the material is modelled as
an arbitrary function of the remaining arguments (rng, depth, hit
geometry, hit point, normal, incoming direction). -/
structure Material where
  calculate_rendering_equation : Nat → Nat → Geometry → Vector3 → Vector3 → Vector3 → Color3

/-- The MissShader capability: dyn MissShader as its calculate_color
function. -/
structure MissShader where
  calculate_color : Ray → Color3

/-- Scene, from src/yart/src/scene.rs, restricted to the state its two
ray-casting methods read: the ordered material collection, the miss shader
and the root geometry.  (The camera and light collections are never read
by cast_ray_color or cast_ray_distance.)  The RNG handle is modelled as an
opaque Nat threaded through, and the u16 depth as a Nat. -/
structure Scene where
  materials : List Material
  miss_shader : MissShader
  root_geometry : Intersectable

/-- Scene::cast_ray_color, translated clause by clause from
src/yart/src/scene.rs lines 41-77. -/
def Scene.cast_ray_color (scene : Scene) (rng : Nat) (ray : Ray) (depth : Nat) : Color3 :=
  if depth > 7 then
    Color3.default
  else
    match scene.root_geometry.intersect ray with
    | some intersection_some =>
      let material :=
        if intersection_some.material_index_override > 0 then
          scene.materials[intersection_some.material_index_override]?
        else
          scene.materials[intersection_some.hit_geometry.material_index]?
      let hit_position :=
        Vector3.add ray.position
          (Vector3.smul intersection_some.entrance_distance ray.direction)
      let hit_normal := intersection_some.hit_geometry.calculate_normal ray hit_position
      let hit_position := Vector3.add hit_position (Vector3.mul_scalar hit_normal NORMAL_BUMP)
      match material with
      | some material_some =>
        material_some.calculate_rendering_equation rng depth intersection_some.hit_geometry
          hit_position hit_normal ray.direction
      | none => Color3.default
    | none => scene.miss_shader.calculate_color ray

/-- Observable events of one cast_ray_color call: the root-geometry
intersection test, a miss-shader invocation with its ray, a material
lookup by resolved index, and a material invocation by resolved index. -/
inductive Event where
  | rootIntersect (ray : Ray) : Event
  | missShader (ray : Ray) : Event
  | materialLookup (index : Nat) : Event
  | materialInvoke (index : Nat) : Event
deriving DecidableEq

/-- Scene::cast_ray_color instrumented with its event trace: the same
translation of src/yart/src/scene.rs lines 41-77, additionally returning
the list of collaborator invocations in order. -/
def Scene.cast_ray_color_events (scene : Scene) (rng : Nat) (ray : Ray) (depth : Nat) :
    Color3 × List Event :=
  if depth > 7 then
    (Color3.default, [])
  else
    match scene.root_geometry.intersect ray with
    | some intersection_some =>
      let lookup_index :=
        if intersection_some.material_index_override > 0 then
          intersection_some.material_index_override
        else
          intersection_some.hit_geometry.material_index
      let material :=
        if intersection_some.material_index_override > 0 then
          scene.materials[intersection_some.material_index_override]?
        else
          scene.materials[intersection_some.hit_geometry.material_index]?
      let hit_position :=
        Vector3.add ray.position
          (Vector3.smul intersection_some.entrance_distance ray.direction)
      let hit_normal := intersection_some.hit_geometry.calculate_normal ray hit_position
      let hit_position := Vector3.add hit_position (Vector3.mul_scalar hit_normal NORMAL_BUMP)
      match material with
      | some material_some =>
        (material_some.calculate_rendering_equation rng depth intersection_some.hit_geometry
            hit_position hit_normal ray.direction,
          [Event.rootIntersect ray, Event.materialLookup lookup_index,
            Event.materialInvoke lookup_index])
      | none =>
        (Color3.default, [Event.rootIntersect ray, Event.materialLookup lookup_index])
    | none =>
      (scene.miss_shader.calculate_color ray, [Event.rootIntersect ray, Event.missShader ray])

/-- The indices of the material lookups recorded in a trace. -/
def materialLookups (events : List Event) : List Nat :=
  events.filterMap fun e =>
    match e with
    | Event.materialLookup index => some index
    | _ => none

/-- Scene::cast_ray_distance, from src/yart/src/scene.rs lines 79-82. -/
def Scene.cast_ray_distance (scene : Scene) (ray : Ray) : Option Real :=
  match scene.root_geometry.intersect ray with
  | none => none
  | some intersection => some (Real.max (Real.fin 0) intersection.entrance_distance)

/-! Concrete instances used by the witness theorems. -/

/-- A concrete ray at the origin along the z axis. -/
def exampleRay : Ray :=
  { position := ⟨Real.fin 0, Real.fin 0, Real.fin 0⟩
    direction := ⟨Real.fin 0, Real.fin 0, Real.fin 1⟩
    inverse_direction := ⟨Real.posInf, Real.posInf, Real.fin 1⟩ }

/-- A concrete hit geometry with material index 0 and a constant normal. -/
def exampleGeometry : Geometry :=
  { material_index := 0
    calculate_normal := fun _ _ => ⟨Real.fin 0, Real.fin 0, Real.fin (-1)⟩ }

/-- A root geometry that never reports a hit. -/
def missIntersectable : Intersectable :=
  ⟨fun _ => none⟩

/-- A root geometry that always reports the same hit, with a negative
entrance distance and no material override. -/
def hitIntersectable : Intersectable :=
  ⟨fun _ => some ⟨exampleGeometry, Real.fin (-1), 0⟩⟩

/-- A miss shader returning a fixed non-black color. -/
def exampleMissShader : MissShader :=
  ⟨fun _ => ⟨Real.fin 1, Real.fin 0, Real.fin 0⟩⟩

/-- A scene with no materials whose root geometry never hits. -/
def exampleScene : Scene :=
  { materials := []
    miss_shader := exampleMissShader
    root_geometry := missIntersectable }

/-- A scene with no materials whose root geometry always hits. -/
def hitScene : Scene :=
  { materials := []
    miss_shader := exampleMissShader
    root_geometry := hitIntersectable }

/-- A bounding volume that rejects every ray. -/
def falseVolume : BoundingVolume :=
  ⟨fun _ => false, BoundingBox.new_inverse_infinity⟩

/-- A bounding volume that accepts every ray. -/
def trueVolume : BoundingVolume :=
  ⟨fun _ => true, BoundingBox.new_infinity⟩

/-- A concrete finite box. -/
def exampleBox : BoundingBox :=
  { minimum := ⟨Real.fin (-2), Real.fin (-2), Real.fin (-2)⟩
    maximum := ⟨Real.fin 3, Real.fin 3, Real.fin 3⟩ }

/-- A concrete finite point. -/
def examplePoint : Vector3 :=
  ⟨Real.fin 1, Real.fin (-5), Real.fin 7⟩

/-- The slab-test acceptance condition exactly as the spec words it: per
axis, t0 is (minimum - origin) * inverse_direction and t1 is
(maximum - origin) * inverse_direction; the exit distance is the minimum
over the three axes of max(t0, t1), the entrance distance the maximum over
the three axes of min(t0, t1); the ray hits iff the exit distance is
nonnegative and the entrance distance is at most the exit distance. -/
def spec_slab_hit (b : BoundingBox) (r : Ray) : Prop :=
  let t0x := Real.mul (Real.sub b.minimum.x r.position.x) r.inverse_direction.x
  let t1x := Real.mul (Real.sub b.maximum.x r.position.x) r.inverse_direction.x
  let t0y := Real.mul (Real.sub b.minimum.y r.position.y) r.inverse_direction.y
  let t1y := Real.mul (Real.sub b.maximum.y r.position.y) r.inverse_direction.y
  let t0z := Real.mul (Real.sub b.minimum.z r.position.z) r.inverse_direction.z
  let t1z := Real.mul (Real.sub b.maximum.z r.position.z) r.inverse_direction.z
  let exit_distance :=
    Real.min (Real.min (Real.max t0x t1x) (Real.max t0y t1y)) (Real.max t0z t1z)
  let entrance_distance :=
    Real.max (Real.max (Real.min t0x t1x) (Real.min t0y t1y)) (Real.min t0z t1z)
  Real.le (Real.fin 0) exit_distance = true ∧ Real.le entrance_distance exit_distance = true

/-! Basic facts about the extended-rational order. -/

theorem Real.le_posInf (a : Real) : Real.le a Real.posInf = true := by
  cases a <;> rfl

theorem Real.min_posInf_right (a : Real) : Real.min a Real.posInf = a := by
  simp [Real.min, Real.le_posInf]

theorem Real.max_negInf_right (a : Real) : Real.max a Real.negInf = a := by
  cases a <;> simp [Real.max, Real.le]

theorem Real.zero_le_max_zero (d : Real) :
    Real.le (Real.fin 0) (Real.max (Real.fin 0) d) = true := by
  cases d with
  | negInf => simp [Real.max, Real.le]
  | posInf => simp [Real.max, Real.le]
  | fin q =>
    by_cases h : (0 : ℚ) ≤ q
    · simp [Real.max, Real.le, h]
    · simp [Real.max, Real.le, h]

/-- The instrumented evaluator computes the same color as
Scene::cast_ray_color; the trace is pure observation. -/
theorem cast_ray_color_events_fst (scene : Scene) (rng : Nat) (ray : Ray) (depth : Nat) :
    (scene.cast_ray_color_events rng ray depth).1 = scene.cast_ray_color rng ray depth := by
  unfold Scene.cast_ray_color_events Scene.cast_ray_color
  by_cases h : depth > 7
  · simp [h]
  · simp only [h, if_false]
    cases hi : scene.root_geometry.intersect ray with
    | none => simp
    | some i =>
      by_cases hov : i.material_index_override > 0
      · simp only [hov, if_true]
        cases hm : scene.materials[i.material_index_override]? <;> simp [hm]
      · simp only [hov, if_false]
        cases hm : scene.materials[i.hit_geometry.material_index]? <;> simp [hm]

/-- C1: For every bounding box and every ray, ray_intersects returns true
if and only if, taking per-axis values t0 = (minimum - origin) *
inverse_direction and t1 = (maximum - origin) * inverse_direction, the
minimum over the three axes of max(t0, t1) (the exit distance) is >= 0 and
the maximum over the three axes of min(t0, t1) (the entrance distance) is
<= the exit distance. -/
theorem ray_intersects_slab_characterization (b : BoundingBox) (r : Ray) :
    b.ray_intersects r = true ↔ spec_slab_hit b r := by
  simp [BoundingBox.ray_intersects, spec_slab_hit, Vector3.component_mul, Vector3.sub,
    Bool.and_eq_true]

/-- C7: Starting from BoundingBox::new_inverse_infinity() (minimum
+infinity, maximum -infinity), add_bounding_box with any finite box yields
exactly that box, and add_point with any finite point yields the box whose
minimum and maximum both equal that point: the inverse-infinity box is the
identity element of union. -/
theorem new_inverse_infinity_union_identity :
    (∀ b : BoundingBox, b.isFinite = true →
      BoundingBox.new_inverse_infinity.add_bounding_box b = b) ∧
    (∀ p : Vector3, p.isFinite = true →
      BoundingBox.new_inverse_infinity.add_point p = BoundingBox.new p p) := by
  constructor
  · rintro ⟨⟨mnx, mny, mnz⟩, ⟨mxx, mxy, mxz⟩⟩ _
    simp [BoundingBox.add_bounding_box, BoundingBox.new_inverse_infinity, BoundingBox.new,
      BoundingBox.new_infinity, Vector3.min, Vector3.max, Vector3.new_infinity, Vector3.neg,
      Real.neg, Real.min_posInf_right, Real.max_negInf_right]
  · rintro ⟨px, py, pz⟩ _
    simp [BoundingBox.add_point, BoundingBox.new_inverse_infinity, BoundingBox.new,
      Vector3.min, Vector3.max, Vector3.new_infinity, Vector3.neg,
      Real.neg, Real.min_posInf_right, Real.max_negInf_right]

/-- Witness for C7 at a concrete finite box and a concrete finite point. -/
theorem new_inverse_infinity_union_identity_witness :
    BoundingBox.new_inverse_infinity.add_bounding_box exampleBox = exampleBox ∧
      BoundingBox.new_inverse_infinity.add_point examplePoint =
        BoundingBox.new examplePoint examplePoint :=
  ⟨(new_inverse_infinity_union_identity).1 exampleBox (by decide),
    (new_inverse_infinity_union_identity).2 examplePoint (by decide)⟩

/-- C8: overlaps_bounding_box is symmetric: A.overlaps_bounding_box(B)
equals B.overlaps_bounding_box(A) for all boxes A and B. -/
theorem overlaps_bounding_box_symm (a b : BoundingBox) :
    a.overlaps_bounding_box b = b.overlaps_bounding_box a := by
  rw [Bool.eq_iff_iff]
  simp only [BoundingBox.overlaps_bounding_box, Bool.and_eq_true]
  tauto

/-- C10: containment implies overlap: if A.contains_bounding_box(B)
returns true then A.overlaps_bounding_box(B) also returns true. -/
theorem contains_bounding_box_implies_overlaps (a b : BoundingBox)
    (h : a.contains_bounding_box b = true) :
    a.overlaps_bounding_box b = true := by
  simp only [BoundingBox.contains_bounding_box, Bool.and_eq_true] at h
  simp only [BoundingBox.overlaps_bounding_box, Bool.and_eq_true]
  tauto

/-- Witness for C10 at a concrete pair of boxes. -/
theorem contains_bounding_box_implies_overlaps_witness :
    exampleBox.contains_bounding_box exampleBox = true ∧
      exampleBox.overlaps_bounding_box exampleBox = true :=
  ⟨by decide, contains_bounding_box_implies_overlaps exampleBox exampleBox (by decide)⟩

/-- C2: whenever depth > 7, cast_ray_color returns the zero/black color,
and its event trace is empty: the root geometry is not intersected, the
miss shader is not invoked, and no material is looked up or invoked. -/
theorem cast_ray_color_depth_ceiling (scene : Scene) (rng : Nat) (ray : Ray) (depth : Nat)
    (h : depth > 7) :
    scene.cast_ray_color rng ray depth = Color3.default ∧
      scene.cast_ray_color_events rng ray depth = (Color3.default, []) := by
  constructor <;> simp [Scene.cast_ray_color, Scene.cast_ray_color_events, h]

/-- Witness for C2 at depth 8 on a concrete scene. -/
theorem cast_ray_color_depth_ceiling_witness :
    exampleScene.cast_ray_color 0 exampleRay 8 = Color3.default ∧
      exampleScene.cast_ray_color_events 0 exampleRay 8 = (Color3.default, []) :=
  cast_ray_color_depth_ceiling exampleScene 0 exampleRay 8 (by decide)

/-- C3: BoundingGeometry::intersect returns none whenever the owned
bounding volume rejects the ray — for every possible child, so the child
is never consulted — and when the volume accepts the ray it returns
exactly what the child returns. -/
theorem bounding_geometry_intersect_spec (g : BoundingGeometry) (ray : Ray) :
    (g.bounding_volume.ray_intersects ray = false →
      ∀ c : Intersectable, (BoundingGeometry.mk g.bounding_volume c).intersect ray = none) ∧
    (g.bounding_volume.ray_intersects ray = true →
      g.intersect ray = g.child.intersect ray) := by
  constructor
  · intro h c
    simp [BoundingGeometry.intersect, h]
  · intro h
    simp [BoundingGeometry.intersect, h]

/-- Witness for C3: a rejecting volume yields none, an accepting volume
delegates, at concrete instances. -/
theorem bounding_geometry_intersect_spec_witness :
    (BoundingGeometry.mk falseVolume hitIntersectable).intersect exampleRay = none ∧
      (BoundingGeometry.mk trueVolume hitIntersectable).intersect exampleRay =
        hitIntersectable.intersect exampleRay :=
  ⟨(bounding_geometry_intersect_spec (BoundingGeometry.mk falseVolume hitIntersectable)
      exampleRay).1 rfl hitIntersectable,
    (bounding_geometry_intersect_spec (BoundingGeometry.mk trueVolume hitIntersectable)
      exampleRay).2 rfl⟩

/-- C4: at depth <= 7, when the root geometry reports no hit,
cast_ray_color returns the miss shader result for that ray unchanged, and
the event trace shows exactly one root intersection followed by exactly one
miss-shader invocation with that ray — no material lookup or invocation. -/
theorem cast_ray_color_miss_delegates (scene : Scene) (rng : Nat) (ray : Ray) (depth : Nat)
    (hd : depth ≤ 7) (hmiss : scene.root_geometry.intersect ray = none) :
    scene.cast_ray_color rng ray depth = scene.miss_shader.calculate_color ray ∧
      scene.cast_ray_color_events rng ray depth =
        (scene.miss_shader.calculate_color ray,
          [Event.rootIntersect ray, Event.missShader ray]) := by
  have h7 : ¬depth > 7 := by omega
  constructor <;> simp [Scene.cast_ray_color, Scene.cast_ray_color_events, h7, hmiss]

/-- Witness for C4 on a concrete scene whose root never hits. -/
theorem cast_ray_color_miss_delegates_witness :
    exampleScene.cast_ray_color 0 exampleRay 0 =
        exampleScene.miss_shader.calculate_color exampleRay ∧
      exampleScene.cast_ray_color_events 0 exampleRay 0 =
        (exampleScene.miss_shader.calculate_color exampleRay,
          [Event.rootIntersect exampleRay, Event.missShader exampleRay]) :=
  cast_ray_color_miss_delegates exampleScene 0 exampleRay 0 (by decide) rfl

/-- C5: cast_ray_distance returns none exactly when the root geometry
reports no hit; on a hit it returns max(0, entrance_distance); hence any
returned distance is nonnegative. -/
theorem cast_ray_distance_spec (scene : Scene) (ray : Ray) :
    (scene.cast_ray_distance ray = none ↔ scene.root_geometry.intersect ray = none) ∧
    (∀ i, scene.root_geometry.intersect ray = some i →
      scene.cast_ray_distance ray = some (Real.max (Real.fin 0) i.entrance_distance)) ∧
    (∀ d, scene.cast_ray_distance ray = some d → Real.le (Real.fin 0) d = true) := by
  refine ⟨?_, ?_, ?_⟩
  · cases h : scene.root_geometry.intersect ray <;> simp [Scene.cast_ray_distance, h]
  · intro i hi
    simp [Scene.cast_ray_distance, hi]
  · intro d hd
    cases h : scene.root_geometry.intersect ray with
    | none => simp [Scene.cast_ray_distance, h] at hd
    | some i =>
      simp only [Scene.cast_ray_distance, h, Option.some.injEq] at hd
      rw [← hd]
      exact Real.zero_le_max_zero i.entrance_distance

/-- Witness for C5: a hit with entrance distance -1 yields distance 0. -/
theorem cast_ray_distance_spec_witness :
    hitScene.cast_ray_distance exampleRay = some (Real.fin 0) := by
  have h := (cast_ray_distance_spec hitScene exampleRay).2.1
    ⟨exampleGeometry, Real.fin (-1), 0⟩ rfl
  rw [h]
  decide

/-- C6: at depth <= 7, when the root geometry reports a hit whose resolved
material index (the override when positive, otherwise the hit geometry's
own index) is out of range of the materials collection, cast_ray_color
returns the default (black) color. -/
theorem cast_ray_color_missing_material (scene : Scene) (rng : Nat) (ray : Ray) (depth : Nat)
    (i : Intersection) (hd : depth ≤ 7)
    (hhit : scene.root_geometry.intersect ray = some i)
    (hrange : scene.materials.length ≤
      (if i.material_index_override > 0 then i.material_index_override
        else i.hit_geometry.material_index)) :
    scene.cast_ray_color rng ray depth = Color3.default := by
  have h7 : ¬depth > 7 := by omega
  by_cases hov : i.material_index_override > 0
  · have hnone : scene.materials[i.material_index_override]? = none :=
      List.getElem?_eq_none (by simpa [hov] using hrange)
    simp [Scene.cast_ray_color, h7, hhit, hov, hnone]
  · have hnone : scene.materials[i.hit_geometry.material_index]? = none :=
      List.getElem?_eq_none (by simpa [hov] using hrange)
    simp [Scene.cast_ray_color, h7, hhit, hov, hnone]

/-- Witness for C6: a scene with an empty materials collection and a hit
resolving to index 0 returns black. -/
theorem cast_ray_color_missing_material_witness :
    hitScene.cast_ray_color 0 exampleRay 0 = Color3.default :=
  cast_ray_color_missing_material hitScene 0 exampleRay 0
    ⟨exampleGeometry, Real.fin (-1), 0⟩ (by decide) rfl (by decide)

/-- C9: at depth <= 7 on a hit, the material lookup uses the override index
exactly when the override is strictly positive and the hit geometry's own
index when the override is 0; consequently a lookup of index 0 can only
arise with no override in effect, so materials[0] is never selected via the
override mechanism. -/
theorem material_override_resolution (scene : Scene) (rng : Nat) (ray : Ray) (depth : Nat)
    (i : Intersection) (hd : depth ≤ 7)
    (hhit : scene.root_geometry.intersect ray = some i) :
    (0 < i.material_index_override →
      materialLookups (scene.cast_ray_color_events rng ray depth).2 =
        [i.material_index_override]) ∧
    (i.material_index_override = 0 →
      materialLookups (scene.cast_ray_color_events rng ray depth).2 =
        [i.hit_geometry.material_index]) ∧
    (∀ index, index ∈ materialLookups (scene.cast_ray_color_events rng ray depth).2 →
      index = 0 → i.material_index_override = 0) := by
  have h7 : ¬depth > 7 := by omega
  have hpos : ∀ hov : 0 < i.material_index_override,
      materialLookups (scene.cast_ray_color_events rng ray depth).2 =
        [i.material_index_override] := by
    intro hov
    cases hm : scene.materials[i.material_index_override]? <;>
      simp [Scene.cast_ray_color_events, h7, hhit, hov, hm, materialLookups]
  have hzero : ∀ hov : i.material_index_override = 0,
      materialLookups (scene.cast_ray_color_events rng ray depth).2 =
        [i.hit_geometry.material_index] := by
    intro hov
    cases hm : scene.materials[i.hit_geometry.material_index]? <;>
      simp [Scene.cast_ray_color_events, h7, hhit, hov, hm, materialLookups]
  refine ⟨hpos, hzero, ?_⟩
  intro index hmem h0
  by_cases hov : 0 < i.material_index_override
  · rw [hpos hov] at hmem
    simp at hmem
    omega
  · omega

/-- Witness for C9: a hit with override 0 looks up the geometry's own
material index. -/
theorem material_override_resolution_witness :
    materialLookups (hitScene.cast_ray_color_events 0 exampleRay 0).2 = [0] := by
  have h := (material_override_resolution hitScene 0 exampleRay 0
    ⟨exampleGeometry, Real.fin (-1), 0⟩ (by decide) rfl).2.1 rfl
  simpa using h

end Yart
